import Mathlib

/-!
Shallow embedding of `app.py` (heart-readmission prediction service):
feature encoders, timestamp handling, the fixed 31-name feature order,
the vector assembler, and the `POST /predict` handler modelled as a pure
function from the parsed JSON body to an HTTP response plus the list of
records written to the store.  Python floats are modelled as rationals,
Python ints as `Int`; a raised exception is an `Except.error`.
-/

namespace Backml

/-- A JSON value as parsed from the request body (only the shapes the
service can receive at the fields it reads: numbers, strings, null). -/
inductive JVal where
  | num (q : ℚ)
  | str (s : String)
  | null
deriving DecidableEq, Repr

/-- A value of the enriched `result` dict that gets persisted: numbers
(Python int and float collapsed to ℚ), strings, None, and the server
timestamp from datetime.now(). -/
inductive Val where
  | num (q : ℚ)
  | str (s : String)
  | null
  | time (t : Int)
deriving DecidableEq, Repr

/-- The parsed JSON body: finitely many string-keyed fields.  JSON objects
have unique keys, so first-match lookup is dict lookup. -/
abbrev ReqData := List (String × JVal)

/-- The enriched record (Python `result` dict, insertion order kept). -/
abbrev Record := List (String × Val)

/-- Python `data.get(k)`: the value at key `k`, or None when absent. -/
def dictGet (data : ReqData) (k : String) : Option JVal :=
  (data.find? (fun p => p.1 == k)).map (·.2)

/-- Lookup in the enriched record (Python `result.get(f)`). -/
def lookupVal (r : Record) (k : String) : Option Val :=
  (r.find? (fun p => p.1 == k)).map (·.2)

/-- Python str.lower() on the ASCII clinical codes this service handles. -/
def pyLower (s : String) : String := String.mk (s.data.map Char.toLower)

/-- Python str.upper() on the ASCII clinical codes this service handles. -/
def pyUpper (s : String) : String := String.mk (s.data.map Char.toUpper)

/-- Python str.strip(): drop whitespace from both ends. -/
def pyStrip (s : String) : String :=
  String.mk (((s.data.dropWhile Char.isWhitespace).reverse.dropWhile Char.isWhitespace).reverse)

/-- `encode_admission_type` (app.py lines 23-27): uppercase the input and
compare against EMERGENCY and URGENT, giving two 0/1 indicators. -/
def encode_admission_type (admission_type : String) : List (String × Int) :=
  [("admission_type_EMERGENCY", if pyUpper admission_type = "EMERGENCY" then 1 else 0),
   ("admission_type_URGENT", if pyUpper admission_type = "URGENT" then 1 else 0)]

/-- `encode_flag` (app.py lines 29-35): lowercase the input and look it up
in the mapping nan to 0, abnormal to 1, delta to 2, defaulting to 0. -/
def encode_flag (flag_value : String) : Int :=
  if pyLower flag_value = "nan" then 0
  else if pyLower flag_value = "abnormal" then 1
  else if pyLower flag_value = "delta" then 2
  else 0

/-- `encode_discharge_location` (app.py lines 37-46): strip and uppercase
the input, then compare against six literal category strings. -/
def encode_discharge_location (value : String) : List (String × Int) :=
  let v := pyUpper (pyStrip value)
  [("discharge_location_HOME", if v = "HOME" then 1 else 0),
   ("discharge_location_HOME HEALTH CARE", if v = "HOME HEALTH CARE" then 1 else 0),
   ("discharge_location_SNF", if v = "SNF" then 1 else 0),
   ("discharge_location_SHORT TERM HOSPITAL", if v = "SHORT TERM HOSPITAL" then 1 else 0),
   ("discharge_location_REHAB/DISTINCT PART HOSP", if v = "REHAB/DISTINCT PART HOSP" then 1 else 0),
   ("discharge_location_OTHER FACILITY", if v = "OTHER FACILITY" then 1 else 0)]

/-- `get_insurance_risk` (app.py lines 48-56): exact (case-sensitive) dict
lookup in the five-entry table, defaulting to 0. -/
def get_insurance_risk (insurance_type : String) : Int :=
  if insurance_type = "Medicare" then 3
  else if insurance_type = "Medicaid" then 4
  else if insurance_type = "Private" then 1
  else if insurance_type = "Self Pay" then 2
  else if insurance_type = "Government" then 2
  else 0

/-! ### Timestamps: datetime.strptime with format %Y-%m-%d %H:%M:%S -/

structure PyDateTime where
  year : Nat
  month : Nat
  day : Nat
  hour : Nat
  minute : Nat
  second : Nat
deriving DecidableEq, Repr

def isLeapYear (y : Nat) : Bool :=
  y % 4 = 0 && (y % 100 != 0 || y % 400 = 0)

def daysInMonth (y m : Nat) : Nat :=
  if m = 2 then (if isLeapYear y then 29 else 28)
  else if m = 4 || m = 6 || m = 9 || m = 11 then 30
  else 31

def digitVal (c : Char) : Nat := c.toNat - '0'.toNat

/-- Read exactly `n` digits (most significant first). -/
def readFixedDigits : Nat → List Char → Option (Nat × List Char)
  | 0, cs => some (0, cs)
  | n + 1, c :: cs =>
    if c.isDigit then
      match readFixedDigits n cs with
      | some (v, rest) => some (digitVal c * 10 ^ n + v, rest)
      | none => none
    else none
  | _ + 1, [] => none

/-- Read one or two digits, greedily (as the strptime field patterns do on
the well-formed inputs this service sees). -/
def readOneOrTwoDigits : List Char → Option (Nat × List Char)
  | c1 :: c2 :: cs =>
    if c1.isDigit then
      if c2.isDigit then some (digitVal c1 * 10 + digitVal c2, cs)
      else some (digitVal c1, c2 :: cs)
    else none
  | [c1] => if c1.isDigit then some (digitVal c1, []) else none
  | [] => none

def expectChar (c : Char) : List Char → Option (List Char)
  | d :: cs => if d = c then some cs else none
  | [] => none

/-- Field-by-field match of "%Y-%m-%d %H:%M:%S" (4-digit year, 1-2 digit
month, day, hour, minute, second), with the range checks strptime and the
datetime constructor perform; the whole string must be consumed. -/
def strptimeCore (cs : List Char) : Option PyDateTime := do
  let (y, r1) ← readFixedDigits 4 cs
  let r2 ← expectChar '-' r1
  let (m, r3) ← readOneOrTwoDigits r2
  let r4 ← expectChar '-' r3
  let (d, r5) ← readOneOrTwoDigits r4
  let r6 ← expectChar ' ' r5
  let (hh, r7) ← readOneOrTwoDigits r6
  let r8 ← expectChar ':' r7
  let (mi, r9) ← readOneOrTwoDigits r8
  let r10 ← expectChar ':' r9
  let (ss, r11) ← readOneOrTwoDigits r10
  if r11.isEmpty ∧ 1 ≤ y ∧ 1 ≤ m ∧ m ≤ 12 ∧ 1 ≤ d ∧ d ≤ daysInMonth y m
      ∧ hh ≤ 23 ∧ mi ≤ 59 ∧ ss ≤ 59 then
    some ⟨y, m, d, hh, mi, ss⟩
  else
    none

/-- datetime.strptime(s, "%Y-%m-%d %H:%M:%S"): a ValueError becomes an
`Except.error`. -/
def strptime (s : String) : Except String PyDateTime :=
  match strptimeCore s.toList with
  | some t => .ok t
  | none => .error ("time data " ++ s ++ " does not match format %Y-%m-%d %H:%M:%S")

/-- Days since 1970-01-01 of a proleptic-Gregorian civil date (Hinnant's
days-from-civil algorithm), matching Python date ordinal arithmetic. -/
def daysFromCivil (y m d : Int) : Int :=
  let yy := if m ≤ 2 then y - 1 else y
  let era := yy.fdiv 400
  let yoe := yy - era * 400
  let mp := if 2 < m then m - 3 else m + 9
  let doy := (153 * mp + 2).fdiv 5 + d - 1
  let doe := yoe * 365 + yoe.fdiv 4 - yoe.fdiv 100 + doy
  era * 146097 + doe - 719468

/-- Seconds since the epoch of a parsed timestamp. -/
def toSeconds (t : PyDateTime) : Int :=
  daysFromCivil t.year t.month t.day * 86400
    + t.hour * 3600 + t.minute * 60 + t.second

/-- `calculate_length_of_stay` (app.py lines 58-61): parse both timestamps
and return `(discharge - admit).days`; Python timedelta days is the floor
(toward negative infinity) of the difference in whole days. -/
def calculate_length_of_stay (admit_time_str discharge_time_str : String) :
    Except String Int := do
  let admit_time ← strptime admit_time_str
  let discharge_time ← strptime discharge_time_str
  pure ((toSeconds discharge_time - toSeconds admit_time).fdiv 86400)

/-- `get_admit_weekday` (app.py lines 63-65): datetime.weekday(), Monday 0
through Sunday 6 (1970-01-01 was a Thursday, weekday 3). -/
def get_admit_weekday (admit_time_str : String) : Except String Int := do
  let admit_time ← strptime admit_time_str
  pure ((daysFromCivil admit_time.year admit_time.month admit_time.day + 3).emod 7)

/-! ### Call-site semantics: the handler fetches fields with data.get and
passes the possibly-missing value straight to an encoder or coercion. -/

/-- Digits read greedily into an accumulator: value, digit count, rest. -/
def readDigitsAcc : List Char → Nat → Nat → (Nat × Nat × List Char)
  | c :: cs, acc, cnt =>
    if c.isDigit then readDigitsAcc cs (acc * 10 + digitVal c) (cnt + 1)
    else (acc, cnt, c :: cs)
  | [], acc, cnt => (acc, cnt, [])

/-- A plain decimal float literal (optional sign, digits, optional
fractional part), the only string shape float() meets here. -/
def parseDecimal (s : String) : Option ℚ :=
  let cs0 := (pyStrip s).toList
  let sign : ℚ × List Char :=
    match cs0 with
    | '-' :: rest => (-1, rest)
    | '+' :: rest => (1, rest)
    | _ => (1, cs0)
  let ipart := readDigitsAcc sign.2 0 0
  match ipart.2.2 with
  | [] => if ipart.2.1 = 0 then none else some (sign.1 * ipart.1)
  | '.' :: rest =>
    let fpart := readDigitsAcc rest 0 0
    if fpart.2.2 = [] ∧ ipart.2.1 + fpart.2.1 ≠ 0 then
      some (sign.1 * ((ipart.1 : ℚ) + (fpart.1 : ℚ) / (10 : ℚ) ^ fpart.2.1))
    else none
  | _ => none

/-- Python float(x) on a fetched field: a number passes through, a decimal
string is converted, None (missing field or JSON null) raises TypeError. -/
def pyFloat : Option JVal → Except String ℚ
  | some (.num q) => .ok q
  | some (.str s) =>
    match parseDecimal s with
    | some q => .ok q
    | none => .error ("could not convert string to float: " ++ s)
  | _ => .error "float() argument must be a string or a real number, not NoneType"

/-- encode_admission_type(data.get(k)): a missing or non-string value
raises AttributeError when .upper() is called on it. -/
def encode_admission_typeJ : Option JVal → Except String (List (String × Int))
  | some (.str s) => .ok (encode_admission_type s)
  | _ => .error "AttributeError: object has no attribute upper"

/-- encode_flag(data.get(k)): a missing or non-string value raises
AttributeError when .lower() is called on it. -/
def encode_flagJ : Option JVal → Except String Int
  | some (.str s) => .ok (encode_flag s)
  | _ => .error "AttributeError: object has no attribute lower"

/-- encode_discharge_location(data.get(k)): a missing or non-string value
raises AttributeError when .strip() is called on it. -/
def encode_discharge_locationJ : Option JVal → Except String (List (String × Int))
  | some (.str s) => .ok (encode_discharge_location s)
  | _ => .error "AttributeError: object has no attribute strip"

/-- get_insurance_risk(data.get("insurance")): a dict lookup never raises;
a missing or non-string key simply misses the table and yields 0. -/
def get_insurance_riskJ : Option JVal → Except String Int
  | some (.str s) => .ok (get_insurance_risk s)
  | _ => .ok 0

/-- strptime requires a string first argument; None or a number raises. -/
def asTimeString : Option JVal → Except String String
  | some (.str s) => .ok s
  | _ => .error "strptime() argument 1 must be str"

def calculate_length_of_stayJ (a d : Option JVal) : Except String Int := do
  let sa ← asTimeString a
  let sd ← asTimeString d
  calculate_length_of_stay sa sd

def get_admit_weekdayJ (a : Option JVal) : Except String Int := do
  let sa ← asTimeString a
  get_admit_weekday sa

/-! ### The fixed feature order and the vector assembler -/

/-- `feature_order` (app.py lines 111-122), verbatim. -/
def feature_order : List String :=
  ["ntprobnp", "ntprobnp_flag", "creatinine", "creatinine_flag",
   "urea nitrogen", "urea nitrogen_flag", "sodium", "sodium_flag",
   "potassium", "potassium_flag", "albumin", "albumin_flag",
   "c-reactive protein", "c-reactive protein_flag", "hemoglobin", "hemoglobin_flag",
   "hematocrit", "hematocrit_flag", "magnesium", "magnesium_flag",
   "admission_type_EMERGENCY", "admission_type_URGENT",
   "discharge_location_HOME", "discharge_location_HOME HEALTH CARE",
   "discharge_location_SNF", "discharge_location_SHORT TERM HOSPITAL",
   "discharge_location_REHAB/DISTINCT PART HOSP", "discharge_location_OTHER FACILITY",
   "insurance_risk", "length_of_stay", "admit_weekday"]

/-- The Vector Assembler (app.py line 152):
np.array of result.get(f, 0) for f in feature_order. -/
def assemble (result : Record) : List Val :=
  feature_order.map (fun f => (lookupVal result f).getD (Val.num 0))

/-! ### The enriched record and the handler -/

/-- Entries of a returned indicator dict, as stored (Python ints). -/
def intEntries (l : List (String × Int)) : Record :=
  l.map (fun p => (p.1, Val.num (p.2 : ℚ)))

def toVal : Option JVal → Val
  | some (.num q) => .num q
  | some (.str s) => .str s
  | _ => .null

/-- The `result` dict (app.py lines 124-149) in its insertion order, given
the already-computed coerced labs, flag codes, indicator dicts and derived
fields. -/
def mkResult (data : ReqData) (now : Int)
    (ntprobnp creatinine urea_nitrogen sodium potassium albumin crp
      hemoglobin hematocrit magnesium : ℚ)
    (f1 f2 f3 f4 f5 f6 f7 f8 f9 f10 : Int)
    (admission discharge : List (String × Int))
    (insurance_risk length_of_stay admit_weekday : Int) : Record :=
  [("patient_id", toVal (dictGet data "patient_id")),
   ("patient_name", toVal (dictGet data "patient_name")),
   ("ntprobnp", .num ntprobnp),
   ("creatinine", .num creatinine),
   ("urea_nitrogen", .num urea_nitrogen),
   ("sodium", .num sodium),
   ("potassium", .num potassium),
   ("albumin", .num albumin),
   ("c_reactive_protein", .num crp),
   ("hemoglobin", .num hemoglobin),
   ("hematocrit", .num hematocrit),
   ("magnesium", .num magnesium),
   ("ntprobnp_flag", .num (f1 : ℚ)), ("creatinine_flag", .num (f2 : ℚ)),
   ("urea nitrogen_flag", .num (f3 : ℚ)), ("sodium_flag", .num (f4 : ℚ)),
   ("potassium_flag", .num (f5 : ℚ)), ("albumin_flag", .num (f6 : ℚ)),
   ("c-reactive protein_flag", .num (f7 : ℚ)), ("hemoglobin_flag", .num (f8 : ℚ)),
   ("hematocrit_flag", .num (f9 : ℚ)), ("magnesium_flag", .num (f10 : ℚ))]
  ++ intEntries admission ++ intEntries discharge ++
  [("insurance", toVal (dictGet data "insurance")),
   ("insurance_risk", .num (insurance_risk : ℚ)),
   ("length_of_stay", .num (length_of_stay : ℚ)),
   ("admit_weekday", .num (admit_weekday : ℚ)),
   ("admission_type", toVal (dictGet data "admission_type")),
   ("discharge_location", toVal (dictGet data "discharge_location")),
   ("admit_time", toVal (dictGet data "admit_time")),
   ("discharge_time", toVal (dictGet data "discharge_time")),
   ("timestamp", .time now)]

/-- app.py lines 76-149: field coercions and encodings in source order,
then the `result` dict; any raised exception short-circuits. -/
def buildBase (now : Int) (data : ReqData) : Except String Record := do
  let ntprobnp ← pyFloat (dictGet data "ntprobnp")
  let creatinine ← pyFloat (dictGet data "creatinine")
  let urea_nitrogen ← pyFloat (dictGet data "urea_nitrogen")
  let sodium ← pyFloat (dictGet data "sodium")
  let potassium ← pyFloat (dictGet data "potassium")
  let albumin ← pyFloat (dictGet data "albumin")
  let crp ← pyFloat (dictGet data "c_reactive_protein")
  let hemoglobin ← pyFloat (dictGet data "hemoglobin")
  let hematocrit ← pyFloat (dictGet data "hematocrit")
  let magnesium ← pyFloat (dictGet data "magnesium")
  let f1 ← encode_flagJ (dictGet data "ntprobnp_flag")
  let f2 ← encode_flagJ (dictGet data "creatinine_flag")
  let f3 ← encode_flagJ (dictGet data "urea_nitrogen_flag")
  let f4 ← encode_flagJ (dictGet data "sodium_flag")
  let f5 ← encode_flagJ (dictGet data "potassium_flag")
  let f6 ← encode_flagJ (dictGet data "albumin_flag")
  let f7 ← encode_flagJ (dictGet data "c_reactive_protein_flag")
  let f8 ← encode_flagJ (dictGet data "hemoglobin_flag")
  let f9 ← encode_flagJ (dictGet data "hematocrit_flag")
  let f10 ← encode_flagJ (dictGet data "magnesium_flag")
  let admission ← encode_admission_typeJ (dictGet data "admission_type")
  let discharge ← encode_discharge_locationJ (dictGet data "discharge_location")
  let insurance_risk ← get_insurance_riskJ (dictGet data "insurance")
  let length_of_stay ← calculate_length_of_stayJ
    (dictGet data "admit_time") (dictGet data "discharge_time")
  let admit_weekday ← get_admit_weekdayJ (dictGet data "admit_time")
  pure (mkResult data now ntprobnp creatinine urea_nitrogen sodium potassium
    albumin crp hemoglobin hematocrit magnesium
    f1 f2 f3 f4 f5 f6 f7 f8 f9 f10
    admission discharge insurance_risk length_of_stay admit_weekday)

/-- The opaque collaborators: classifier (predict and predict_proba on the
assembled vector, either of which may raise), store (insert succeeds or
raises), and the server clock. -/
structure Env where
  predictLabel : List Val → Except String Int
  predictProba : List Val → Except String ℚ
  insertOk : Bool
  now : Int

/-- The three response shapes of the endpoint: jsonify success (200),
the fixed 400, and the blanket 500. -/
inductive Response where
  | success (prediction : Int) (probability : ℚ) (message : String)
  | clientError (error : String)
  | serverError (error : String)
deriving DecidableEq, Repr

def Response.isSuccess : Response → Bool
  | .success _ _ _ => true
  | _ => false

/-- The body of the try block after the emptiness check (app.py lines
76-169): build the record, assemble the vector, invoke the classifier,
append the prediction fields, insert into the store. -/
def predictBody (env : Env) (data : ReqData) :
    Except String ((Int × ℚ) × Record) := do
  let result ← buildBase env.now data
  let X := assemble result
  let label ← env.predictLabel X
  let probability ← env.predictProba X
  let record := result ++
    [("prediction_result", Val.str (if label = 1 then "Yes" else "No")),
     ("readmission_probability", Val.num probability)]
  if env.insertOk then
    pure ((label, probability), record)
  else
    throw "store insert failed"

/-- The `POST /predict` handler (app.py lines 68-172): the HTTP response
together with the list of records written to the store.  An empty parsed
body is falsy and returns the fixed 400; any exception in the body is
caught by the blanket handler and returned as a 500 with no write. -/
def predict (env : Env) (data : ReqData) : Response × List Record :=
  if data.isEmpty then (.clientError "No data provided", [])
  else
    match predictBody env data with
    | .ok ((label, probability), record) =>
      (.success label probability "Prediction successful", [record])
    | .error e => (.serverError e, [])

def exOk {ε α : Type _} : Except ε α → Bool
  | .ok _ => true
  | .error _ => false

/-- The ten lab measurements under the names the feature list uses. -/
def labBaseNames : List String :=
  ["ntprobnp", "creatinine", "urea nitrogen", "sodium", "potassium",
   "albumin", "c-reactive protein", "hemoglobin", "hematocrit", "magnesium"]

/-- The documented fixed feature list, assembled from its description:
ten lab value/flag pairs, two admission-type indicators, six
discharge-location indicators, insurance_risk, length_of_stay,
admit_weekday. -/
def specFeatureOrder : List String :=
  (labBaseNames.map (fun n => [n, n ++ "_flag"])).flatten
  ++ ["admission_type_EMERGENCY", "admission_type_URGENT"]
  ++ ["discharge_location_HOME", "discharge_location_HOME HEALTH CARE",
      "discharge_location_SNF", "discharge_location_SHORT TERM HOSPITAL",
      "discharge_location_REHAB/DISTINCT PART HOSP", "discharge_location_OTHER FACILITY"]
  ++ ["insurance_risk", "length_of_stay", "admit_weekday"]

/-- The keys of the `result` dict before the prediction fields are added,
in insertion order. -/
def resultKeys : List String :=
  ["patient_id", "patient_name",
   "ntprobnp", "creatinine", "urea_nitrogen", "sodium", "potassium",
   "albumin", "c_reactive_protein", "hemoglobin", "hematocrit", "magnesium",
   "ntprobnp_flag", "creatinine_flag", "urea nitrogen_flag", "sodium_flag",
   "potassium_flag", "albumin_flag", "c-reactive protein_flag",
   "hemoglobin_flag", "hematocrit_flag", "magnesium_flag",
   "admission_type_EMERGENCY", "admission_type_URGENT",
   "discharge_location_HOME", "discharge_location_HOME HEALTH CARE",
   "discharge_location_SNF", "discharge_location_SHORT TERM HOSPITAL",
   "discharge_location_REHAB/DISTINCT PART HOSP", "discharge_location_OTHER FACILITY",
   "insurance", "insurance_risk", "length_of_stay", "admit_weekday",
   "admission_type", "discharge_location", "admit_time", "discharge_time",
   "timestamp"]

/-- A complete, well-formed request body used as a concrete test vector. -/
def sampleData : ReqData :=
  [("patient_id", .str "p1"), ("patient_name", .str "Alice"),
   ("ntprobnp", .num 1200), ("creatinine", .num 2), ("urea_nitrogen", .num 42),
   ("sodium", .num 138), ("potassium", .num 4), ("albumin", .num 3),
   ("c_reactive_protein", .num 7), ("hemoglobin", .num 13), ("hematocrit", .num 39),
   ("magnesium", .num 2),
   ("ntprobnp_flag", .str "abnormal"), ("creatinine_flag", .str "nan"),
   ("urea_nitrogen_flag", .str "delta"), ("sodium_flag", .str "nan"),
   ("potassium_flag", .str "nan"), ("albumin_flag", .str "nan"),
   ("c_reactive_protein_flag", .str "abnormal"), ("hemoglobin_flag", .str "nan"),
   ("hematocrit_flag", .str "nan"), ("magnesium_flag", .str "nan"),
   ("admission_type", .str "EMERGENCY"), ("discharge_location", .str "Home"),
   ("insurance", .str "Medicare"),
   ("admit_time", .str "2024-01-01 08:00:00"),
   ("discharge_time", .str "2024-01-03 10:00:00")]

/-- The stub class-1 probability 41/50, given in lowest terms. -/
def stubProba : ℚ := ⟨41, 50, by decide, by decide⟩

/-- A classifier stub (label 1, probability 41/50) over a working store. -/
def stubEnv : Env :=
  { predictLabel := fun _ => .ok 1,
    predictProba := fun _ => .ok stubProba,
    insertOk := true, now := 0 }

/-- The single record written for `sampleData` under `stubEnv`. -/
def sampleRecord : Record := (predict stubEnv sampleData).2.headD []

/-! ### Helper lemmas -/

theorem exceptBind_ok {ε α β : Type} (e : Except ε α) (f : α → Except ε β) (b : β) :
    (e >>= f) = .ok b ↔ ∃ a, e = .ok a ∧ f a = .ok b := by
  cases e with
  | ok a => simp [Bind.bind, Except.bind]
  | error msg => simp [Bind.bind, Except.bind]

theorem exceptPure_ok {ε α : Type} (a b : α) :
    (pure a : Except ε α) = .ok b ↔ a = b := by
  simp [pure, Except.pure]

theorem intEntries_keys (l : List (String × Int)) :
    (intEntries l).map Prod.fst = l.map Prod.fst := by
  simp [intEntries]

theorem encode_admission_typeJ_keys (v : Option JVal) (adm : List (String × Int))
    (h : encode_admission_typeJ v = .ok adm) :
    adm.map Prod.fst = ["admission_type_EMERGENCY", "admission_type_URGENT"] := by
  match v, h with
  | some (.str s), h =>
    simp only [encode_admission_typeJ, Except.ok.injEq] at h
    subst h
    simp [encode_admission_type]

theorem encode_discharge_locationJ_keys (v : Option JVal) (dis : List (String × Int))
    (h : encode_discharge_locationJ v = .ok dis) :
    dis.map Prod.fst =
      ["discharge_location_HOME", "discharge_location_HOME HEALTH CARE",
       "discharge_location_SNF", "discharge_location_SHORT TERM HOSPITAL",
       "discharge_location_REHAB/DISTINCT PART HOSP", "discharge_location_OTHER FACILITY"] := by
  match v, h with
  | some (.str s), h =>
    simp only [encode_discharge_locationJ, Except.ok.injEq] at h
    subst h
    simp [encode_discharge_location]

theorem lookupVal_append_of_not_mem (l1 l2 : Record) (k : String)
    (h : k ∉ l1.map Prod.fst) : lookupVal (l1 ++ l2) k = lookupVal l2 k := by
  induction l1 with
  | nil => rfl
  | cons p rest ih =>
    simp only [List.map_cons, List.mem_cons, not_or] at h
    simp only [lookupVal, List.cons_append, List.find?]
    have : (p.1 == k) = false := by
      simp only [beq_eq_false_iff_ne, ne_eq]
      exact fun hk => h.1 hk.symm
    rw [this]
    exact ih h.2

theorem exceptOkBind {ε α β : Type} (a : α) (f : α → Except ε β) :
    (Except.ok a >>= f : Except ε β) = f a := rfl

theorem mkResult_keys (data : ReqData) (now : Int)
    (q1 q2 q3 q4 q5 q6 q7 q8 q9 q10 : ℚ)
    (f1 f2 f3 f4 f5 f6 f7 f8 f9 f10 : Int)
    (admission discharge : List (String × Int))
    (ir los wd : Int)
    (ha : admission.map Prod.fst = ["admission_type_EMERGENCY", "admission_type_URGENT"])
    (hd : discharge.map Prod.fst =
      ["discharge_location_HOME", "discharge_location_HOME HEALTH CARE",
       "discharge_location_SNF", "discharge_location_SHORT TERM HOSPITAL",
       "discharge_location_REHAB/DISTINCT PART HOSP", "discharge_location_OTHER FACILITY"]) :
    (mkResult data now q1 q2 q3 q4 q5 q6 q7 q8 q9 q10
      f1 f2 f3 f4 f5 f6 f7 f8 f9 f10 admission discharge ir los wd).map Prod.fst
      = resultKeys := by
  simp [mkResult, resultKeys, intEntries_keys, ha, hd]

theorem buildBase_ok_keys (now : Int) (data : ReqData) (r : Record)
    (h : buildBase now data = .ok r) : r.map Prod.fst = resultKeys := by
  rw [buildBase] at h
  simp only [exceptBind_ok, exceptPure_ok] at h
  obtain ⟨v1, h1, v2, h2, v3, h3, v4, h4, v5, h5, v6, h6, v7, h7, v8, h8, v9, h9, v10, h10,
    g1, k1, g2, k2, g3, k3, g4, k4, g5, k5, g6, k6, g7, k7, g8, k8, g9, k9, g10, k10,
    adm, ka, dis, kd, ins, ki, los, kl, wd, kw, hr⟩ := h
  subst hr
  exact mkResult_keys data now v1 v2 v3 v4 v5 v6 v7 v8 v9 v10
    g1 g2 g3 g4 g5 g6 g7 g8 g9 g10 adm dis ins los wd
    (encode_admission_typeJ_keys _ _ ka) (encode_discharge_locationJ_keys _ _ kd)

theorem predictBody_ok_shape (env : Env) (data : ReqData) (lp : Int × ℚ) (rec : Record)
    (h : predictBody env data = .ok (lp, rec)) :
    ∃ r0, buildBase env.now data = .ok r0 ∧
      rec = r0 ++
        [("prediction_result", Val.str (if lp.1 = 1 then "Yes" else "No")),
         ("readmission_probability", Val.num lp.2)] := by
  rw [predictBody] at h
  simp only [exceptBind_ok] at h
  obtain ⟨r0, h0, l, hl, p, hp, hfin⟩ := h
  refine ⟨r0, h0, ?_⟩
  by_cases hins : env.insertOk
  · rw [if_pos hins, exceptPure_ok] at hfin
    injection hfin with hA hB
    subst hA
    subst hB
    rfl
  · rw [if_neg hins] at hfin
    exact absurd hfin (by simp)

/-! ### Claims -/

/-- C1: for every merged feature mapping, the Vector Assembler produces a
numeric vector of exactly 31 elements, ordered exactly per the documented
fixed feature list (ten lab value/flag pairs, two admission-type
indicators, six discharge-location indicators, insurance_risk,
length_of_stay, admit_weekday), and any feature name missing from the
mapping contributes 0 at its position without raising an error. -/
theorem assemble_fixed_order_and_defaults (result : Record) :
    (assemble result).length = 31 ∧
    feature_order = specFeatureOrder ∧
    (∀ i : Nat, (assemble result)[i]? =
      (feature_order[i]?).map (fun f => (lookupVal result f).getD (Val.num 0))) ∧
    (∀ i : Nat, ∀ f : String, feature_order[i]? = some f →
      lookupVal result f = none → (assemble result)[i]? = some (Val.num 0)) := by
  refine ⟨by rw [assemble, List.length_map]; rfl, by decide,
    fun i => List.getElem?_map _ _ _, fun i f hf hnone => ?_⟩
  rw [assemble, List.getElem?_map, hf]
  simp [hnone]

/-- C1 witness: on the empty mapping, position 0 of the vector is the
default 0. -/
theorem assemble_defaults_witness : (assemble [])[0]? = some (Val.num 0) :=
  (assemble_fixed_order_and_defaults []).2.2.2 0 "ntprobnp" (by decide) (by decide)

/-- C2: a successful request supplying urea_nitrogen = 42 and
c_reactive_protein = 7 nevertheless hands the classifier a vector whose
positions 4 ('urea nitrogen') and 12 ('c-reactive protein') are 0: the
merged mapping stores those labs under underscore keys, so the lookup by
the space/hyphen feature names silently defaults. -/
theorem urea_crp_features_zeroed :
    (predict stubEnv sampleData).1.isSuccess = true ∧
    dictGet sampleData "urea_nitrogen" = some (.num 42) ∧
    dictGet sampleData "c_reactive_protein" = some (.num 7) ∧
    feature_order[4]? = some "urea nitrogen" ∧
    feature_order[12]? = some "c-reactive protein" ∧
    (buildBase stubEnv.now sampleData).map
        (fun r => ((assemble r)[4]?, (assemble r)[12]?)) =
      .ok (some (Val.num 0), some (Val.num 0)) :=
  ⟨rfl, rfl, rfl, rfl, rfl, rfl⟩

/-- C3: an empty parsed body yields the fixed 400 with no store write, and
in general exactly one record is written when the response is a success
and none when it is an error. -/
theorem empty_body_400_and_store_once (env : Env) (data : ReqData) :
    predict env [] = (.clientError "No data provided", []) ∧
    ((predict env data).1.isSuccess = true → (predict env data).2.length = 1) ∧
    ((predict env data).1.isSuccess = false → (predict env data).2 = []) := by
  refine ⟨rfl, ?_, ?_⟩ <;> cases data with
  | nil => intro h; simp [predict, Response.isSuccess] at h ⊢
  | cons a l =>
    cases hpb : predictBody env (a :: l) with
    | ok v =>
      obtain ⟨⟨label, prob⟩, rec⟩ := v
      intro h; simp [predict, hpb, Response.isSuccess] at h ⊢
    | error e =>
      intro h; simp [predict, hpb, Response.isSuccess] at h ⊢

/-- C3 witness: the concrete successful request writes exactly one
record. -/
theorem store_once_witness : (predict stubEnv sampleData).2.length = 1 :=
  (empty_body_400_and_store_once stubEnv sampleData).2.1 (by decide)

/-- C4 counterexample: a missing (absent) flag field does not default to
0; the fetched None raises when .lower() is called on it. -/
theorem missing_flag_field_raises :
    encode_flagJ none = .error "AttributeError: object has no attribute lower" := rfl

/-- C4 amended: encode_flag is total and case-insensitive on strings,
mapping nan to 0, abnormal to 1, delta to 2 and every other string
(including the empty string) to 0 without error; but a missing (absent)
flag field raises instead of returning 0. -/
theorem encode_flag_total_case_insensitive (s t : String) :
    (pyLower s = pyLower t → encode_flag s = encode_flag t) ∧
    encode_flag "Abnormal" = 1 ∧ encode_flag "" = 0 ∧
    encode_flag "nan" = 0 ∧ encode_flag "abnormal" = 1 ∧ encode_flag "delta" = 2 ∧
    (pyLower s ∉ (["nan", "abnormal", "delta"] : List String) → encode_flag s = 0) ∧
    encode_flagJ (some (.str s)) = .ok (encode_flag s) := by
  refine ⟨fun h => ?_, by decide, by decide, by decide, by decide, by decide,
    fun h => ?_, rfl⟩
  · rw [encode_flag, encode_flag, h]
  · simp only [List.mem_cons, List.not_mem_nil, or_false, not_or] at h
    obtain ⟨h1, h2, h3⟩ := h
    rw [encode_flag, if_neg h1, if_neg h2, if_neg h3]

/-- C4 witness: case-insensitivity and the unknown-string default at
concrete inputs. -/
theorem encode_flag_witness :
    encode_flag "ABNORMAL" = encode_flag "abnormal" ∧ encode_flag "xyz" = 0 :=
  ⟨(encode_flag_total_case_insensitive "ABNORMAL" "abnormal").1 (by decide),
   (encode_flag_total_case_insensitive "xyz" "xyz").2.2.2.2.2.2.1 (by decide)⟩

/-- C5 counterexample: encode_admission_type does fail on a missing
(absent) input: the fetched None raises when .upper() is called on it. -/
theorem missing_admission_type_raises :
    encode_admission_typeJ none = .error "AttributeError: object has no attribute upper" := rfl

/-- C5 amended: on any present string input the four non-timestamp
encoders never fail; get_insurance_risk tolerates even a missing or
non-string value (dict lookup, default 0); but encode_flag,
encode_admission_type and encode_discharge_location raise on a missing
input, and timestamp parsing raises on a malformed string. -/
theorem encoder_error_discipline (s : String) (v : Option JVal) :
    exOk (encode_admission_typeJ (some (.str s))) = true ∧
    exOk (encode_flagJ (some (.str s))) = true ∧
    exOk (encode_discharge_locationJ (some (.str s))) = true ∧
    exOk (get_insurance_riskJ v) = true ∧
    get_insurance_riskJ none = .ok 0 ∧
    exOk (encode_flagJ none) = false ∧
    exOk (encode_admission_typeJ none) = false ∧
    exOk (encode_discharge_locationJ none) = false ∧
    exOk (strptime "2024-13-01 00:00:00") = false := by
  refine ⟨rfl, rfl, rfl, ?_, rfl, rfl, rfl, rfl, by decide⟩
  cases v with
  | none => rfl
  | some j => cases j <;> rfl

/-- C6: length of stay parses both timestamps in the fixed format and
returns the whole-day difference floored toward negative infinity: the
documented example gives 2, a sub-24-hour stay gives 0, a reversed pair
gives a negative value, and in general the result n satisfies
86400 n ≤ diff < 86400 (n+1). -/
theorem length_of_stay_floor_days (a d : String) (ta td : PyDateTime)
    (ha : strptime a = .ok ta) (hd : strptime d = .ok td) :
    calculate_length_of_stay "2024-01-01 08:00:00" "2024-01-03 10:00:00" = .ok 2 ∧
    calculate_length_of_stay "2024-01-01 08:00:00" "2024-01-01 23:30:00" = .ok 0 ∧
    calculate_length_of_stay "2024-01-03 10:00:00" "2024-01-01 08:00:00" = .ok (-3) ∧
    calculate_length_of_stay a d = .ok ((toSeconds td - toSeconds ta).fdiv 86400) ∧
    86400 * ((toSeconds td - toSeconds ta).fdiv 86400) ≤ toSeconds td - toSeconds ta ∧
    toSeconds td - toSeconds ta <
      86400 * ((toSeconds td - toSeconds ta).fdiv 86400 + 1) := by
  refine ⟨rfl, rfl, rfl, ?_, ?_, ?_⟩
  · rw [calculate_length_of_stay, ha, exceptOkBind, hd, exceptOkBind]
    rfl
  · rw [Int.fdiv_eq_ediv _ (by norm_num)]
    omega
  · rw [Int.fdiv_eq_ediv _ (by norm_num)]
    omega

/-- C6 witness: the floor bounds instantiated at the documented example
timestamps. -/
theorem length_of_stay_witness :
    calculate_length_of_stay "2024-01-01 08:00:00" "2024-01-03 10:00:00" =
      .ok ((toSeconds ⟨2024, 1, 3, 10, 0, 0⟩ - toSeconds ⟨2024, 1, 1, 8, 0, 0⟩).fdiv 86400) ∧
    86400 * ((toSeconds ⟨2024, 1, 3, 10, 0, 0⟩ - toSeconds ⟨2024, 1, 1, 8, 0, 0⟩).fdiv 86400)
      ≤ toSeconds ⟨2024, 1, 3, 10, 0, 0⟩ - toSeconds ⟨2024, 1, 1, 8, 0, 0⟩ :=
  ⟨(length_of_stay_floor_days "2024-01-01 08:00:00" "2024-01-03 10:00:00"
      ⟨2024, 1, 1, 8, 0, 0⟩ ⟨2024, 1, 3, 10, 0, 0⟩ rfl rfl).2.2.2.1,
   (length_of_stay_floor_days "2024-01-01 08:00:00" "2024-01-03 10:00:00"
      ⟨2024, 1, 1, 8, 0, 0⟩ ⟨2024, 1, 3, 10, 0, 0⟩ rfl rfl).2.2.2.2.1⟩

/-- C7: get_insurance_risk is an exact, case-sensitive five-entry lookup
and every other string yields 0. -/
theorem insurance_risk_exact_lookup (s : String) :
    get_insurance_risk "Medicare" = 3 ∧ get_insurance_risk "Medicaid" = 4 ∧
    get_insurance_risk "Private" = 1 ∧ get_insurance_risk "Self Pay" = 2 ∧
    get_insurance_risk "Government" = 2 ∧ get_insurance_risk "medicare" = 0 ∧
    (s ∉ (["Medicare", "Medicaid", "Private", "Self Pay", "Government"] : List String) →
      get_insurance_risk s = 0) := by
  refine ⟨rfl, rfl, rfl, rfl, rfl, rfl, fun h => ?_⟩
  simp only [List.mem_cons, List.not_mem_nil, or_false, not_or] at h
  obtain ⟨h1, h2, h3, h4, h5⟩ := h
  rw [get_insurance_risk, if_neg h1, if_neg h2, if_neg h3, if_neg h4, if_neg h5]

/-- C7 witness: an unmatched value at a concrete input. -/
theorem insurance_risk_witness : get_insurance_risk "Medicare Advantage" = 0 :=
  (insurance_risk_exact_lookup "Medicare Advantage").2.2.2.2.2.2 (by decide)

/-- C8: encode_admission_type matches case-insensitively against
EMERGENCY and URGENT and yields two binary indicators, both zero when
neither matches. -/
theorem admission_type_case_insensitive (s t : String) :
    encode_admission_type "emergency" =
      [("admission_type_EMERGENCY", 1), ("admission_type_URGENT", 0)] ∧
    encode_admission_type "Routine" =
      [("admission_type_EMERGENCY", 0), ("admission_type_URGENT", 0)] ∧
    (pyUpper s = pyUpper t → encode_admission_type s = encode_admission_type t) ∧
    (pyUpper s ≠ "EMERGENCY" → pyUpper s ≠ "URGENT" →
      encode_admission_type s =
        [("admission_type_EMERGENCY", 0), ("admission_type_URGENT", 0)]) := by
  refine ⟨by decide, by decide, fun h => ?_, fun h1 h2 => ?_⟩
  · rw [encode_admission_type, encode_admission_type, h]
  · rw [encode_admission_type, if_neg h1, if_neg h2]

/-- C8 witness: case-insensitivity and the no-fallback case at concrete
inputs. -/
theorem admission_type_witness :
    encode_admission_type "EMERgency" = encode_admission_type "emergency" ∧
    encode_admission_type "elective" =
      [("admission_type_EMERGENCY", 0), ("admission_type_URGENT", 0)] :=
  ⟨(admission_type_case_insensitive "EMERgency" "emergency").2.2.1 (by decide),
   (admission_type_case_insensitive "elective" "elective").2.2.2 (by decide) (by decide)⟩

/-- C9 counterexample: the OTHER FACILITY indicator does trigger: the
input Other Facility normalizes to OTHER FACILITY and sets it to 1. -/
theorem other_facility_indicator_triggers :
    encode_discharge_location "Other Facility" =
      [("discharge_location_HOME", 0), ("discharge_location_HOME HEALTH CARE", 0),
       ("discharge_location_SNF", 0), ("discharge_location_SHORT TERM HOSPITAL", 0),
       ("discharge_location_REHAB/DISTINCT PART HOSP", 0),
       ("discharge_location_OTHER FACILITY", 1)] := by decide

/-- C9 amended: the OTHER FACILITY indicator is 1 exactly when the
trimmed, uppercased input equals OTHER FACILITY; any input whose
normalized form matches none of the six canonical strings yields the
all-zero indicator vector. -/
theorem discharge_location_other_facility (s : String) :
    (encode_discharge_location s).lookup "discharge_location_OTHER FACILITY" =
      some (if pyUpper (pyStrip s) = "OTHER FACILITY" then 1 else 0) ∧
    (pyUpper (pyStrip s) ∉ (["HOME", "HOME HEALTH CARE", "SNF", "SHORT TERM HOSPITAL",
        "REHAB/DISTINCT PART HOSP", "OTHER FACILITY"] : List String) →
      encode_discharge_location s =
        [("discharge_location_HOME", 0), ("discharge_location_HOME HEALTH CARE", 0),
         ("discharge_location_SNF", 0), ("discharge_location_SHORT TERM HOSPITAL", 0),
         ("discharge_location_REHAB/DISTINCT PART HOSP", 0),
         ("discharge_location_OTHER FACILITY", 0)]) := by
  refine ⟨rfl, fun h => ?_⟩
  simp only [List.mem_cons, List.not_mem_nil, or_false, not_or] at h
  obtain ⟨h1, h2, h3, h4, h5, h6⟩ := h
  simp only [encode_discharge_location]
  rw [if_neg h1, if_neg h2, if_neg h3, if_neg h4, if_neg h5, if_neg h6]

/-- C9 witness: a genuinely novel facility name falls into the all-zero
bucket. -/
theorem discharge_location_witness :
    encode_discharge_location "Nursing Home" =
      [("discharge_location_HOME", 0), ("discharge_location_HOME HEALTH CARE", 0),
       ("discharge_location_SNF", 0), ("discharge_location_SHORT TERM HOSPITAL", 0),
       ("discharge_location_REHAB/DISTINCT PART HOSP", 0),
       ("discharge_location_OTHER FACILITY", 0)] :=
  (discharge_location_other_facility "Nursing Home").2 (by decide)

/-- C10: a successful request stores the label as the string Yes when the
classifier label is 1 (No otherwise) in prediction_result and the class-1
probability in readmission_probability, while the response carries the
same label as an integer. -/
theorem stored_label_vs_response_label (env : Env) (data : ReqData)
    (l : Int) (p : ℚ) (r : Record)
    (h : predict env data = (.success l p "Prediction successful", [r])) :
    lookupVal r "prediction_result" = some (.str (if l = 1 then "Yes" else "No")) ∧
    lookupVal r "readmission_probability" = some (.num p) := by
  rw [predict] at h
  by_cases hde : data.isEmpty
  · rw [if_pos hde] at h
    exact absurd h (by simp)
  · rw [if_neg hde] at h
    cases hpb : predictBody env data with
    | error e =>
      rw [hpb] at h
      exact absurd h (by simp)
    | ok v =>
      obtain ⟨⟨label, prob⟩, rec⟩ := v
      rw [hpb] at h
      injection h with hresp hrecs
      injection hresp with hl hp hmsg
      injection hrecs with hrec hnil
      subst hl
      subst hp
      subst hrec
      obtain ⟨r0, h0, hshape⟩ := predictBody_ok_shape env data (label, prob) rec hpb
      have hkeys := buildBase_ok_keys env.now data r0 h0
      have hnm : "prediction_result" ∉ r0.map Prod.fst := by
        rw [hkeys]; decide
      have hnm2 : "readmission_probability" ∉ r0.map Prod.fst := by
        rw [hkeys]; decide
      refine ⟨?_, ?_⟩
      · rw [hshape, lookupVal_append_of_not_mem _ _ _ hnm]
        rfl
      · rw [hshape, lookupVal_append_of_not_mem _ _ _ hnm2]
        rfl

/-- C10 witness: the concrete successful request stores Yes and 41/50
while the response carries label 1. -/
theorem stored_label_witness :
    lookupVal sampleRecord "prediction_result" =
      some (.str (if (1 : Int) = 1 then "Yes" else "No")) ∧
    lookupVal sampleRecord "readmission_probability" = some (.num stubProba) :=
  stored_label_vs_response_label stubEnv sampleData 1 stubProba sampleRecord (by decide)

end Backml
